import Mathlib

/-!
Verification of the Eufy homebridge plugin's streaming core.

Two components are embedded:
* `LocalLivestreamManager` — the broker that owns the single upstream
  livestream per device (file `LocalLivestreamManager`, exporting
  `getLocalLivestream`, `stopLocalLiveStream`, `onStationLivestreamStart`,
  `onStationLivestreamStop`, `getInitSegment`).
* `StreamingDelegate` — the per-viewer session controller
  (`streamingDelegate.ts`, exporting `determineResolution`,
  `handleSnapshotRequest` / `fetchSnapshot`, `startStream`, `stopStream`).

The embedding is a shallow state-machine model: JavaScript promises become
explicit waiter lists / result fields, the event-emitter becomes explicit
event functions, timestamps are naturals counting milliseconds, and the
single-threaded interleavings of async code are modelled by the order in
which the event functions are applied.
-/

namespace LocalLivestreamManager

/-- The `StationStream` record of `LocalLivestreamManager`:
`{station, device, metadata, vStream, aStream, createdAt}`.  Collaborator
objects are represented by identifiers; `createdAt` is a millisecond
timestamp. -/
structure StationStream where
  stationId : Nat
  deviceSerial : String
  metadataId : Nat
  vStreamId : Nat
  aStreamId : Nat
  createdAt : Nat
  deriving Repr, DecidableEq

/-- The mutable state of a `LocalLivestreamManager` instance together with
an explicit record of its observable effects:
* `initSegment`, `stationStream`, `livestreamStartedAt`,
  `livestreamIsStarting` are the four instance fields;
* `waiters` holds the pending `once('livestream start')` listeners
  (one per suspended `startAndGetLocalLiveStream` caller, in registration
  order);
* `resolved` / `rejected` record how those callers were completed;
* `startCommands` / `stopCommands` count calls to
  `eufyClient.startStationLivestream` / `stopStationLivestream`;
* `closedStreams` records calls to `vStream.close()` / `aStream.close()`
  by stream identifier. -/
structure State where
  initSegment : Option Nat
  stationStream : Option StationStream
  livestreamStartedAt : Option Nat
  livestreamIsStarting : Bool
  waiters : List Nat
  resolved : List (Nat × StationStream)
  rejected : List Nat
  startCommands : Nat
  stopCommands : Nat
  closedStreams : List Nat
  deriving Repr, DecidableEq

/-- The state of a freshly constructed manager. -/
def mkManager : State :=
  { initSegment := none, stationStream := none, livestreamStartedAt := none,
    livestreamIsStarting := false, waiters := [], resolved := [], rejected := [],
    startCommands := 0, stopCommands := 0, closedStreams := [] }

/-- `private initialize()`: when a `stationStream` is present, closes both
of its track bridges, then clears `_initSegment`, `stationStream` and
`livestreamStartedAt`.  It touches neither `livestreamIsStarting` nor the
registered listeners. -/
def resetManager (s : State) : State :=
  let closed :=
    match s.stationStream with
    | some ss => s.closedStreams ++ [ss.vStreamId, ss.aStreamId]
    | none => s.closedStreams
  { s with
      initSegment := none, stationStream := none,
      livestreamStartedAt := none, closedStreams := closed }

/-- `private async startAndGetLocalLiveStream()`: if `livestreamIsStarting`
is not yet set, sets it and issues one `startStationLivestream` command;
otherwise only waits.  Either way the caller registers a one-shot
`livestream start` listener and suspends (immediate result `none`). -/
def startAndGetLocalLiveStream (caller : Nat) (s : State) :
    State × Option StationStream :=
  let s1 :=
    if s.livestreamIsStarting then s
    else { s with livestreamIsStarting := true,
                  startCommands := s.startCommands + 1 }
  ({ s1 with waiters := s1.waiters ++ [caller] }, none)

/-- `public async getLocalLivestream()`: returns the existing
`stationStream` immediately when present, else defers to
`startAndGetLocalLiveStream`. -/
def getLocalLivestream (caller : Nat) (s : State) :
    State × Option StationStream :=
  match s.stationStream with
  | some ss => (s, some ss)
  | none => startAndGetLocalLiveStream caller s

/-- `public stopLocalLiveStream()`: issues one `stopStationLivestream`
command and runs `initialize()`. -/
def stopLocalLiveStream (s : State) : State :=
  resetManager { s with stopCommands := s.stopCommands + 1 }

/-- `private onStationLivestreamStop(station, device)`: on a serial match,
runs `initialize()`. -/
def onStationLivestreamStop (cameraSN deviceSerial : String) (s : State) :
    State :=
  if deviceSerial = cameraSN then resetManager s else s

/-- The duplicate-notification guard at the top of
`onStationLivestreamStart`: a `stationStream` exists and
`(Date.now() - createdAt) / 1000 < 5`. -/
def duplicateWithin5s (now : Nat) (s : State) : Bool :=
  match s.stationStream with
  | some ss => now - ss.createdAt < 5000
  | none => false

/-- `this.emit('livestream start')`: every registered one-shot listener
runs; each reads `this.stationStream`, and when it is non-null sets
`livestreamIsStarting := false` and resolves with it, otherwise rejects. -/
def emitLivestreamStart (s : State) : State :=
  match s.stationStream with
  | some ss =>
      { s with
        resolved := s.resolved ++ s.waiters.map (fun w => (w, ss)),
        livestreamIsStarting :=
          if s.waiters.isEmpty then s.livestreamIsStarting else false,
        waiters := [] }
  | none => { s with rejected := s.rejected ++ s.waiters, waiters := [] }

/-- `private async onStationLivestreamStart(station, device, metadata,
videostream, audiostream)`: on a serial match, discards the event when a
`stationStream` less than five seconds old exists; otherwise runs
`initialize()`, installs a fresh `stationStream` stamped `createdAt := now`,
sets `livestreamStartedAt`, and emits `livestream start`.  (The
`videostream.once('data')` registration is modelled by the separate event
`onFirstVideoChunk`.) -/
def onStationLivestreamStart (cameraSN : String) (now : Nat)
    (deviceSerial : String) (stationId metadataId vStreamId aStreamId : Nat)
    (s : State) : State :=
  if deviceSerial = cameraSN then
    if duplicateWithin5s now s then s
    else
      let s1 := resetManager s
      let ss : StationStream :=
        { stationId := stationId, deviceSerial := deviceSerial,
          metadataId := metadataId, vStreamId := vStreamId,
          aStreamId := aStreamId, createdAt := now }
      emitLivestreamStart
        { s1 with livestreamStartedAt := some now, stationStream := some ss }
  else s

/-- First `data` chunk on the new videostream: stores `_initSegment`. -/
def onFirstVideoChunk (chunk : Nat) (s : State) : State :=
  { s with initSegment := some chunk }

/-- `public async getInitSegment()`: returns `this.initSegment` when set
and otherwise calls itself again.  The recursion is fuelled to make it a
total Lean function; no step of the original changes the state it reads,
so running out of fuel corresponds to the original never returning. -/
def getInitSegmentFuel : Nat → State → Option Nat
  | 0, _ => none
  | n + 1, s =>
    match s.initSegment with
    | some b => some b
    | none => getInitSegmentFuel n s

/-- A sequence of `getLocalLivestream` calls, each running its synchronous
prefix to the point where it either resolves or suspends. -/
def acquireAll (callers : List Nat) (s : State) : State :=
  callers.foldl (fun st c => (getLocalLivestream c st).1) s

end LocalLivestreamManager

namespace LocalLivestreamManager

theorem acquireAll_of_starting (callers : List Nat) (s : State)
    (h1 : s.stationStream = none) (h2 : s.livestreamIsStarting = true) :
    acquireAll callers s = { s with waiters := s.waiters ++ callers } := by
  induction callers generalizing s with
  | nil => simp [acquireAll]
  | cons c cs ih =>
      simp only [acquireAll, List.foldl_cons]
      have hstep : (getLocalLivestream c s).1 =
          { s with waiters := s.waiters ++ [c] } := by
        simp [getLocalLivestream, startAndGetLocalLiveStream, h1, h2]
      rw [hstep]
      have := ih { s with waiters := s.waiters ++ [c] } (by simp [h1]) (by simp [h2])
      simpa [acquireAll, List.append_assoc] using this

end LocalLivestreamManager

open LocalLivestreamManager in
/-- Claim C1: starting from a fresh manager (no upstream handle), any
non-empty batch of concurrent `getLocalLivestream` calls issues exactly
one `startStationLivestream` command, and when the station's
`livestream start` event then arrives, every caller is resolved with the
same installed `stationStream` handle and none is rejected. -/
theorem C1_single_start_shared_handle (callers : List Nat)
    (hne : callers ≠ []) (cameraSN : String)
    (now stationId metadataId vStreamId aStreamId : Nat) :
    (acquireAll callers mkManager).startCommands = 1 ∧
    (onStationLivestreamStart cameraSN now cameraSN stationId metadataId
        vStreamId aStreamId (acquireAll callers mkManager)).startCommands = 1 ∧
    ∃ ss : StationStream,
      (onStationLivestreamStart cameraSN now cameraSN stationId metadataId
          vStreamId aStreamId (acquireAll callers mkManager)).stationStream
        = some ss ∧
      (onStationLivestreamStart cameraSN now cameraSN stationId metadataId
          vStreamId aStreamId (acquireAll callers mkManager)).resolved
        = callers.map (fun c => (c, ss)) ∧
      (onStationLivestreamStart cameraSN now cameraSN stationId metadataId
          vStreamId aStreamId (acquireAll callers mkManager)).rejected = [] := by
  obtain ⟨c, cs, rfl⟩ := List.exists_cons_of_ne_nil hne
  have hstep : (getLocalLivestream c mkManager).1 =
      { mkManager with
          livestreamIsStarting := true, startCommands := 1,
          waiters := [c] } := by
    simp [getLocalLivestream, startAndGetLocalLiveStream, mkManager]
  have hacq : acquireAll (c :: cs) mkManager =
      { mkManager with
          livestreamIsStarting := true, startCommands := 1,
          waiters := c :: cs } := by
    simp only [acquireAll, List.foldl_cons]
    rw [hstep]
    have := acquireAll_of_starting cs
      { mkManager with
          livestreamIsStarting := true, startCommands := 1,
          waiters := [c] } (by simp [mkManager]) (by simp)
    simpa [acquireAll] using this
  rw [hacq]
  refine ⟨rfl, ?_, ?_⟩
  · simp [onStationLivestreamStart, duplicateWithin5s, resetManager,
      emitLivestreamStart, mkManager]
  · refine ⟨⟨stationId, cameraSN, metadataId, vStreamId, aStreamId, now⟩,
      ?_, ?_, ?_⟩ <;>
    simp [onStationLivestreamStart, duplicateWithin5s, resetManager,
      emitLivestreamStart, mkManager]

/-- Witness for C1 at a concrete batch of three callers. -/
theorem C1_witness :
    ([0, 1, 2] : List Nat) ≠ [] ∧
    ((LocalLivestreamManager.acquireAll [0, 1, 2]
        LocalLivestreamManager.mkManager).startCommands = 1 ∧
     (LocalLivestreamManager.onStationLivestreamStart "SN1" 9000 "SN1" 4 5 6 7
        (LocalLivestreamManager.acquireAll [0, 1, 2]
          LocalLivestreamManager.mkManager)).startCommands = 1 ∧
     ∃ ss : LocalLivestreamManager.StationStream,
      (LocalLivestreamManager.onStationLivestreamStart "SN1" 9000 "SN1" 4 5 6 7
        (LocalLivestreamManager.acquireAll [0, 1, 2]
          LocalLivestreamManager.mkManager)).stationStream = some ss ∧
      (LocalLivestreamManager.onStationLivestreamStart "SN1" 9000 "SN1" 4 5 6 7
        (LocalLivestreamManager.acquireAll [0, 1, 2]
          LocalLivestreamManager.mkManager)).resolved
        = ([0, 1, 2] : List Nat).map (fun c => (c, ss)) ∧
      (LocalLivestreamManager.onStationLivestreamStart "SN1" 9000 "SN1" 4 5 6 7
        (LocalLivestreamManager.acquireAll [0, 1, 2]
          LocalLivestreamManager.mkManager)).rejected = []) :=
  ⟨by decide, C1_single_start_shared_handle [0, 1, 2] (by decide) "SN1" 9000 4 5 6 7⟩

namespace LocalLivestreamManager

/-- A concrete handle used to exercise the manager model. -/
def exampleHandle : StationStream := ⟨1, "SN1", 2, 3, 4, 1000⟩

/-- A concrete manager state holding `exampleHandle`, with an observed
init segment and the starting flag still set. -/
def heldState : State :=
  { mkManager with
      livestreamIsStarting := true,
      stationStream := some exampleHandle,
      livestreamStartedAt := some 1000,
      initSegment := some 99 }

/-- `heldState` with one suspended caller's one-shot
`livestream start` listener (the completion signal) still registered. -/
def heldStateWithWaiter : State := { heldState with waiters := [5] }

end LocalLivestreamManager

open LocalLivestreamManager in
/-- Claim C4, counterexample: `stopLocalLiveStream` neither resets the
`livestreamIsStarting` flag nor clears the registered one-shot
`livestream start` listeners (the completion signal).  On a state whose
flag is set and which has a waiter registered, both survive the call, so
the claim as stated is false. -/
theorem C4_counterexample :
    ¬ ((stopLocalLiveStream heldStateWithWaiter).livestreamIsStarting
          = false ∧
       (stopLocalLiveStream heldStateWithWaiter).waiters = []) := by
  decide

open LocalLivestreamManager in
/-- Claim C4, amended: `stopLocalLiveStream` issues exactly one stop
command to the device collaborator, closes both track bridges of the held
handle, and clears the handle, the start timestamp and the cached init
segment — but it leaves `livestreamIsStarting` unchanged rather than
resetting it to false, and leaves the registered one-shot
`livestream start` listeners (the completion signal) in place rather
than clearing them. -/
theorem C4_release_teardown (s : State) (ss : StationStream)
    (h : s.stationStream = some ss) :
    (stopLocalLiveStream s).stopCommands = s.stopCommands + 1 ∧
    (stopLocalLiveStream s).closedStreams
      = s.closedStreams ++ [ss.vStreamId, ss.aStreamId] ∧
    (stopLocalLiveStream s).stationStream = none ∧
    (stopLocalLiveStream s).livestreamStartedAt = none ∧
    (stopLocalLiveStream s).initSegment = none ∧
    (stopLocalLiveStream s).livestreamIsStarting = s.livestreamIsStarting ∧
    (stopLocalLiveStream s).waiters = s.waiters := by
  simp [stopLocalLiveStream, resetManager, h]

open LocalLivestreamManager in
/-- Witness for C4 at a concrete state holding a handle, with a waiter
registered. -/
theorem C4_release_teardown_witness :
    heldStateWithWaiter.stationStream = some exampleHandle ∧
    ((stopLocalLiveStream heldStateWithWaiter).stopCommands
        = heldStateWithWaiter.stopCommands + 1 ∧
     (stopLocalLiveStream heldStateWithWaiter).closedStreams
       = heldStateWithWaiter.closedStreams
           ++ [exampleHandle.vStreamId, exampleHandle.aStreamId] ∧
     (stopLocalLiveStream heldStateWithWaiter).stationStream = none ∧
     (stopLocalLiveStream heldStateWithWaiter).livestreamStartedAt = none ∧
     (stopLocalLiveStream heldStateWithWaiter).initSegment = none ∧
     (stopLocalLiveStream heldStateWithWaiter).livestreamIsStarting
       = heldStateWithWaiter.livestreamIsStarting ∧
     (stopLocalLiveStream heldStateWithWaiter).waiters
       = heldStateWithWaiter.waiters) :=
  ⟨rfl, C4_release_teardown heldStateWithWaiter exampleHandle rfl⟩

open LocalLivestreamManager in
/-- Claim C6: an `onStationLivestreamStart` notification for the device
while a handle created less than 5000 ms ago exists is discarded — the
whole manager state (handle identity, `createdAt`, cached init segment,
bridges) is left unchanged and no replacement handle is installed. -/
theorem C6_duplicate_start_discarded (cameraSN : String) (now : Nat)
    (stationId metadataId vStreamId aStreamId : Nat) (s : State)
    (ss : StationStream) (h1 : s.stationStream = some ss)
    (h2 : now - ss.createdAt < 5000) :
    onStationLivestreamStart cameraSN now cameraSN
        stationId metadataId vStreamId aStreamId s = s ∧
    (onStationLivestreamStart cameraSN now cameraSN
        stationId metadataId vStreamId aStreamId s).stationStream = some ss := by
  have hdup : duplicateWithin5s now s = true := by
    simp [duplicateWithin5s, h1, h2]
  constructor
  · simp [onStationLivestreamStart, hdup]
  · simp [onStationLivestreamStart, hdup, h1]

open LocalLivestreamManager in
/-- Witness for C6: a handle created at t = 1000 ms, notification at
t = 4500 ms. -/
theorem C6_witness :
    heldState.stationStream = some exampleHandle ∧
    (4500 - exampleHandle.createdAt < 5000) ∧
    (onStationLivestreamStart "SN1" 4500 "SN1" 7 8 9 10 heldState
        = heldState ∧
     (onStationLivestreamStart "SN1" 4500 "SN1" 7 8 9 10
        heldState).stationStream = some exampleHandle) :=
  ⟨rfl, by decide,
    C6_duplicate_start_discarded "SN1" 4500 7 8 9 10 heldState exampleHandle
      rfl (by decide)⟩

namespace LocalLivestreamManager

theorem getInitSegmentFuel_of_none (n : Nat) (s : State)
    (h : s.initSegment = none) : getInitSegmentFuel n s = none := by
  induction n with
  | zero => rfl
  | succ m ih => simp [getInitSegmentFuel, h, ih]

end LocalLivestreamManager

open LocalLivestreamManager in
/-- Claim C9, counterexample: on a fresh manager whose init segment has
not been observed, no retry bound at all makes `getInitSegment` return —
the accessor self-recurses without bound instead of waiting via a bounded
retry/poll policy, so the claim as stated is false. -/
theorem C9_counterexample :
    ¬ ∃ fuel : Nat, (getInitSegmentFuel fuel mkManager).isSome = true := by
  rintro ⟨fuel, h⟩
  rw [getInitSegmentFuel_of_none fuel mkManager rfl] at h
  exact Bool.false_ne_true h

open LocalLivestreamManager in
/-- Claim C9, amended: once the first video chunk has been observed,
`getInitSegment` returns it immediately and never surfaces an error; but
while it has not been observed the accessor retries unboundedly — under no
retry budget does it return — so it blocks indefinitely rather than
waiting via a bounded policy. -/
theorem C9_initsegment_accessor (s : State) (n : Nat) :
    (∀ b : Nat, s.initSegment = some b →
      getInitSegmentFuel (n + 1) s = some b) ∧
    (s.initSegment = none → getInitSegmentFuel n s = none) := by
  constructor
  · intro b hb
    simp [getInitSegmentFuel, hb]
  · intro h
    exact getInitSegmentFuel_of_none n s h

open LocalLivestreamManager in
/-- Witness for C9 on a manager that has observed chunk 42, and on a fresh
manager that has not. -/
theorem C9_initsegment_accessor_witness :
    (onFirstVideoChunk 42 mkManager).initSegment = some 42 ∧
    getInitSegmentFuel 3 (onFirstVideoChunk 42 mkManager) = some 42 ∧
    mkManager.initSegment = none ∧
    getInitSegmentFuel 7 mkManager = none :=
  ⟨rfl, (C9_initsegment_accessor (onFirstVideoChunk 42 mkManager) 2).1 42 rfl,
   rfl, (C9_initsegment_accessor mkManager 7).2 rfl⟩

namespace StreamingDelegate

/-- The fields of `VideoConfig` consulted by `determineResolution` and
`startStream`.  `undefined` optionals are `none`. -/
structure VideoConfig where
  maxWidth : Option Nat
  maxHeight : Option Nat
  maxFPS : Option Nat
  maxBitrate : Option Nat
  forceMax : Bool
  vcodec : Option String
  videoFilter : Option String
  deriving Repr, DecidableEq

/-- The `ResolutionInfo` record of `streamingDelegate.ts`. -/
structure ResolutionInfo where
  width : Nat
  height : Nat
  videoFilter : Option String
  snapFilter : Option String
  resizeFilter : Option String
  deriving Repr, DecidableEq

/-- The scale filter string pushed by `determineResolution`
(`\x27` is the single-quote character). -/
def resizeFilterString (w h : Nat) : String :=
  "scale=" ++ (if w > 0 then "\x27min(" ++ toString w ++ ",iw)\x27" else "iw")
    ++ ":"
    ++ (if h > 0 then "\x27min(" ++ toString h ++ ",ih)\x27" else "ih")
    ++ ":force_original_aspect_ratio=decrease"

/-- The second filter pushed to fit encoder restrictions. -/
def fitEncoderFilter : String := "scale=\x27trunc(iw/2)*2:trunc(ih/2)*2\x27"

/-- `private determineResolution(request, isSnapshot)`: clamps the
requested width/height against `maxWidth`/`maxHeight` (only when not a
snapshot, the maximum is configured, and `forceMax` is set or the request
exceeds it), then assembles the filter strings from
`videoConfig.videoFilter`, honouring a literal member `none`. -/
def determineResolution (cfg : VideoConfig) (reqWidth reqHeight : Nat)
    (isSnapshot : Bool) : ResolutionInfo :=
  let width :=
    if isSnapshot then reqWidth
    else
      match cfg.maxWidth with
      | some m => if cfg.forceMax ∨ reqWidth > m then m else reqWidth
      | none => reqWidth
  let height :=
    if isSnapshot then reqHeight
    else
      match cfg.maxHeight with
      | some m => if cfg.forceMax ∨ reqHeight > m then m else reqHeight
      | none => reqHeight
  let filters :=
    match cfg.videoFilter with
    | some f => f.splitOn ","
    | none => []
  let hasNone := filters.contains "none"
  let filters1 := if hasNone then filters.erase "none" else filters
  let addResize := hasNone = false ∧ (width > 0 ∨ height > 0)
  let filters2 :=
    if addResize then
      filters1 ++ [resizeFilterString width height, fitEncoderFilter]
    else filters1
  { width := width, height := height,
    videoFilter :=
      if filters2.length > 0 then some (String.intercalate "," filters2)
      else none,
    snapFilter := some (String.intercalate "," filters1),
    resizeFilter :=
      if addResize then some (resizeFilterString width height) else none }

/-- `this.videoConfig.vcodec || 'libx264'`. -/
def vcodecStr (cfg : VideoConfig) : String :=
  match cfg.vcodec with
  | some v => if v = "" then "libx264" else v
  | none => "libx264"

/-- The per-track encode parameters `startStream` settles on. -/
structure VideoParams where
  width : Nat
  height : Nat
  fps : Nat
  bitrate : Nat
  videoFilter : Option String
  deriving Repr, DecidableEq

/-- The parameter-derivation block of `startStream`: resolution via
`determineResolution(request.video, false)`, then the `fps` and
`videoBitrate` ternaries, then the `vcodec === 'copy'` override that
zeroes width/height/fps/bitrate and drops the video filter. -/
def deriveVideoParams (cfg : VideoConfig)
    (reqWidth reqHeight reqFps reqBitrate : Nat) : VideoParams :=
  let res := determineResolution cfg reqWidth reqHeight false
  let fps :=
    match cfg.maxFPS with
    | some m => if cfg.forceMax ∨ reqFps > m then m else reqFps
    | none => reqFps
  let bitrate :=
    match cfg.maxBitrate with
    | some m => if cfg.forceMax ∨ reqBitrate > m then m else reqBitrate
    | none => reqBitrate
  if vcodecStr cfg = "copy" then
    { width := 0, height := 0, fps := 0, bitrate := 0, videoFilter := none }
  else
    { width := res.width, height := res.height, fps := fps,
      bitrate := bitrate, videoFilter := res.videoFilter }

/-- Modelled from the spec: clamping applies exactly when a maximum is
configured and either force-maximum is enabled or the requested value
exceeds the maximum. -/
def clampSpec (maxv : Option Nat) (forceMax : Bool) (req : Nat) : Nat :=
  match maxv with
  | some m => if forceMax ∨ req > m then m else req
  | none => req

/-- The snapshot-relevant state of a `StreamingDelegate`:
`snapshotPromise` plus counters of `startStationLivestream` /
`stopStationLivestream` commands issued to the eufy client. -/
structure SnapState where
  snapshotPromise : Option Nat
  startLivestreamCommands : Nat
  stopLivestreamCommands : Nat
  deriving Repr, DecidableEq

/-- A freshly constructed delegate: no cached snapshot promise. -/
def mkDelegate : SnapState :=
  { snapshotPromise := none, startLivestreamCommands := 0,
    stopLivestreamCommands := 0 }

/-- `fetchSnapshot(snapFilter)`, run to completion: awaits
`getLocalLiveStream()` (which issues `startStationLivestream`),
transcodes one frame into `image`, and on ffmpeg close issues
`stopStationLivestream` and schedules the 3-second cache-expiry timer.
No statement in the source ever assigns `this.snapshotPromise` a
promise. -/
def fetchSnapshot (image : Nat) (s : SnapState) : SnapState × Nat :=
  ({ s with
      startLivestreamCommands := s.startLivestreamCommands + 1,
      stopLivestreamCommands := s.stopLivestreamCommands + 1 }, image)

/-- The scheduled `setTimeout` body from `fetchSnapshot`: the only write
to `snapshotPromise` anywhere in the source, setting it to `undefined`
3 seconds after the fetch closed. -/
def expireSnapshotCache (s : SnapState) : SnapState :=
  { s with snapshotPromise := none }

/-- `handleSnapshotRequest`: awaits
`this.snapshotPromise || this.fetchSnapshot(resolution.snapFilter)`. -/
def handleSnapshotRequest (image : Nat) (s : SnapState) : SnapState × Nat :=
  match s.snapshotPromise with
  | some cached => (s, cached)
  | none => fetchSnapshot image s

/-- Which resources an `ActiveSession` record holds
(`mainProcess_video/_audio`, `vsocket`/`asocket`,
`uVideoStream`/`uAudioStream`, `timeout`). -/
structure ActiveSession where
  hasVideoProc : Bool
  hasAudioProc : Bool
  hasVsocket : Bool
  hasAsocket : Bool
  hasUVideo : Bool
  hasUAudio : Bool
  hasTimeout : Bool
  deriving Repr, DecidableEq

/-- The delegate's two session tables.  The TypeScript `Map`s have unique
keys; `delete` is modelled by filtering the key out. -/
structure SDState where
  pendingSessions : List String
  ongoingSessions : List (String × ActiveSession)
  deriving Repr, DecidableEq

/-- `pendingSessions.has/get(sessionId)` truthiness. -/
def hasPending (sid : String) : List String → Bool
  | [] => false
  | x :: t => if x = sid then true else hasPending sid t

/-- `pendingSessions.delete(sessionId)` (keys are unique in a `Map`). -/
def deletePending (sid : String) : List String → List String
  | [] => []
  | x :: t => if x = sid then deletePending sid t else x :: deletePending sid t

/-- `ongoingSessions.get(sessionId)`. -/
def findSession (sid : String) :
    List (String × ActiveSession) → Option ActiveSession
  | [] => none
  | p :: t => if p.1 = sid then some p.2 else findSession sid t

/-- `ongoingSessions.delete(sessionId)`. -/
def deleteSession (sid : String) :
    List (String × ActiveSession) → List (String × ActiveSession)
  | [] => []
  | p :: t => if p.1 = sid then deleteSession sid t else p :: deleteSession sid t

/-- `ongoingSessions.set(sessionId, session)`. -/
def setSession (sid : String) (sess : ActiveSession)
    (l : List (String × ActiveSession)) : List (String × ActiveSession) :=
  deleteSession sid l ++ [(sid, sess)]

/-- Which resource-release calls raise in a given run of `stopStream`
(each corresponds to one call inside one of its `try` blocks). -/
structure FailFlags where
  videoProcStopFails : Bool
  audioProcStopFails : Bool
  vsocketCloseFails : Bool
  asocketCloseFails : Bool
  uVideoCloseFails : Bool
  uAudioCloseFails : Bool
  eufyStopFails : Bool
  deriving Repr, DecidableEq

/-- Run with no release failures. -/
def noFailFlags : FailFlags :=
  { videoProcStopFails := false, audioProcStopFails := false,
    vsocketCloseFails := false, asocketCloseFails := false,
    uVideoCloseFails := false, uAudioCloseFails := false,
    eufyStopFails := false }

/-- Observable effects of one `stopStream` call: which release calls were
actually made and how many per-`try` cleanup failures were logged. -/
structure StopEffects where
  videoProcStopCalled : Bool
  audioProcStopCalled : Bool
  vsocketCloseCalled : Bool
  asocketCloseCalled : Bool
  uVideoCloseCalled : Bool
  uAudioCloseCalled : Bool
  eufyStopCalled : Bool
  timeoutCleared : Bool
  cleanupErrorsLogged : Nat
  deriving Repr, DecidableEq

/-- No release performed, nothing logged. -/
def noStopEffects : StopEffects :=
  { videoProcStopCalled := false, audioProcStopCalled := false,
    vsocketCloseCalled := false, asocketCloseCalled := false,
    uVideoCloseCalled := false, uAudioCloseCalled := false,
    eufyStopCalled := false, timeoutCleared := false,
    cleanupErrorsLogged := 0 }

/-- `public stopStream(sessionId)`: deletes the pending entry when
present; when an ongoing session exists, clears its timeout and runs four
`try` blocks in order — `{video proc stop; audio proc stop}`,
`{vsocket close; asocket close}`, `{uVideoStream close; uAudioStream
close}`, `{eufy stopStationLivestream}` — each catching and logging its
own failure, so a raise on the first call of a block skips the second
call of that same block but not the later blocks; finally deletes the
session from the ongoing table.  Optional resources are only released
when held (`?.`). -/
def stopStream (ff : FailFlags) (sid : String) (s : SDState) :
    SDState × StopEffects :=
  let s1 : SDState :=
    if hasPending sid s.pendingSessions then
      { s with pendingSessions := deletePending sid s.pendingSessions }
    else s
  match findSession sid s1.ongoingSessions with
  | none => (s1, noStopEffects)
  | some sess =>
      let vCall := sess.hasVideoProc
      let vRaise := vCall && ff.videoProcStopFails
      let aCall := sess.hasAudioProc && !vRaise
      let aRaise := aCall && ff.audioProcStopFails
      let vsCall := sess.hasVsocket
      let vsRaise := vsCall && ff.vsocketCloseFails
      let asCall := sess.hasAsocket && !vsRaise
      let asRaise := asCall && ff.asocketCloseFails
      let uvCall := sess.hasUVideo
      let uvRaise := uvCall && ff.uVideoCloseFails
      let uaCall := sess.hasUAudio && !uvRaise
      let uaRaise := uaCall && ff.uAudioCloseFails
      let errors :=
        (if vRaise || aRaise then 1 else 0)
          + (if vsRaise || asRaise then 1 else 0)
          + (if uvRaise || uaRaise then 1 else 0)
          + (if ff.eufyStopFails then 1 else 0)
      ({ s1 with ongoingSessions := deleteSession sid s1.ongoingSessions },
       { videoProcStopCalled := vCall, audioProcStopCalled := aCall,
         vsocketCloseCalled := vsCall, asocketCloseCalled := asCall,
         uVideoCloseCalled := uvCall, uAudioCloseCalled := uaCall,
         eufyStopCalled := true, timeoutCleared := sess.hasTimeout,
         cleanupErrorsLogged := errors })

/-- Log severities used by the delegate's logger. -/
inductive LogLevel
  | debug
  | info
  | warn
  | error
  deriving Repr, DecidableEq

/-- Observable effects of one `startStream` call. -/
structure StartOutcome where
  callbackErrorInvoked : Bool
  startFailureLogged : Bool
  unsupportedCodecLog : Option LogLevel
  orphanStopInvoked : Bool
  createdVideoProc : Bool
  createdAudioProc : Bool
  createdVsocket : Bool
  createdAsocket : Bool
  createdUVideo : Bool
  createdUAudio : Bool
  deriving Repr, DecidableEq

/-- Nothing created, nothing invoked. -/
def noOutcome : StartOutcome :=
  { callbackErrorInvoked := false, startFailureLogged := false,
    unsupportedCodecLog := none, orphanStopInvoked := false,
    createdVideoProc := false, createdAudioProc := false,
    createdVsocket := false, createdAsocket := false,
    createdUVideo := false, createdUAudio := false }

/-- `request.audio.codec === OPUS || request.audio.codec === AAC_ELD`. -/
def supportedAudioCodec (codec : String) : Bool :=
  codec == "OPUS" || codec == "AAC-eld"

/-- `private async startStream(request, callback)`.
`upstreamOk` says whether the awaited `getLocalLiveStream()` resolves;
when it rejects, the enclosing catch only logs and the callback is never
invoked.  On success `uVideoStream` is created before the session-info
check, so it exists even on the missing-session-info path.  With a
pending entry present, the rest of the video side (vsocket, video ffmpeg
process) is created, then the code awaits the fixed 6-second audio
delay — `pendingRemovedDuringDelay` says whether a concurrent
`stopStream(sessionId)` ran during that suspension.  `uAudioStream` is
then created unconditionally, before the codec check; the audio process
and socket (and the attachment of `uAudioStream` to the session record)
only happen for a supported codec, otherwise the condition is logged at
error severity.  Finally the pending entry is re-checked: if still
present the session moves to the ongoing table, otherwise it is added to
the ongoing table and immediately stopped.  With no pending entry at the
first check, the callback is invoked with an error. -/
def startStream (upstreamOk : Bool) (pendingRemovedDuringDelay : Bool)
    (audioCodec : String) (ff : FailFlags) (sid : String) (s : SDState) :
    SDState × StartOutcome :=
  if upstreamOk then
    if hasPending sid s.pendingSessions then
      let s1 := if pendingRemovedDuringDelay then (stopStream ff sid s).1 else s
      let audioSupported := supportedAudioCodec audioCodec
      let sess : ActiveSession :=
        { hasVideoProc := true, hasVsocket := true, hasUVideo := true,
          hasAudioProc := audioSupported, hasAsocket := audioSupported,
          hasUAudio := audioSupported, hasTimeout := false }
      let out : StartOutcome :=
        { callbackErrorInvoked := false, startFailureLogged := false,
          unsupportedCodecLog :=
            if audioSupported then none else some LogLevel.error,
          orphanStopInvoked := false,
          createdVideoProc := true, createdAudioProc := audioSupported,
          createdVsocket := true, createdAsocket := audioSupported,
          createdUVideo := true, createdUAudio := true }
      if hasPending sid s1.pendingSessions then
        ({ pendingSessions := deletePending sid s1.pendingSessions,
           ongoingSessions := setSession sid sess s1.ongoingSessions }, out)
      else
        ((stopStream ff sid
            { s1 with
                ongoingSessions := setSession sid sess s1.ongoingSessions }).1,
         { out with orphanStopInvoked := true })
    else
      (s, { noOutcome with
              callbackErrorInvoked := true, createdUVideo := true })
  else
    (s, { noOutcome with startFailureLogged := true })

end StreamingDelegate

namespace StreamingDelegate

theorem findSession_deleteSession (sid : String)
    (l : List (String × ActiveSession)) :
    findSession sid (deleteSession sid l) = none := by
  induction l with
  | nil => rfl
  | cons p t ih =>
      by_cases h : p.1 = sid
      · simpa [deleteSession, h] using ih
      · simpa [deleteSession, findSession, h] using ih

theorem findSession_append_of_none (sid : String)
    (l1 l2 : List (String × ActiveSession))
    (h : findSession sid l1 = none) :
    findSession sid (l1 ++ l2) = findSession sid l2 := by
  induction l1 with
  | nil => rfl
  | cons p t ih =>
      by_cases hp : p.1 = sid
      · simp [findSession, hp] at h
      · simp only [List.cons_append, findSession] at h ⊢
        rw [if_neg hp] at h ⊢
        exact ih h

theorem findSession_setSession (sid : String) (sess : ActiveSession)
    (l : List (String × ActiveSession)) :
    findSession sid (setSession sid sess l) = some sess := by
  rw [setSession,
    findSession_append_of_none sid _ _ (findSession_deleteSession sid l)]
  simp [findSession]

theorem hasPending_deletePending (sid : String) (l : List String) :
    hasPending sid (deletePending sid l) = false := by
  induction l with
  | nil => rfl
  | cons x t ih =>
      by_cases h : x = sid
      · simpa [deletePending, h] using ih
      · simpa [deletePending, hasPending, h] using ih

theorem stopStream_pending_none (ff : FailFlags) (sid : String)
    (s : SDState) :
    hasPending sid (stopStream ff sid s).1.pendingSessions = false := by
  by_cases hc : hasPending sid s.pendingSessions
  · simp only [stopStream, hc, if_true]
    cases hm : findSession sid (({ s with
        pendingSessions := deletePending sid s.pendingSessions } :
          SDState)).ongoingSessions with
    | none => simpa [hm] using hasPending_deletePending sid s.pendingSessions
    | some sess => simpa [hm] using hasPending_deletePending sid s.pendingSessions
  · simp only [stopStream, hc, Bool.false_eq_true, if_false]
    cases hm : findSession sid s.ongoingSessions with
    | none => simpa [hm] using eq_false_of_ne_true hc
    | some sess => simpa [hm] using eq_false_of_ne_true hc

theorem stopStream_noop (ff : FailFlags) (sid : String) (s : SDState)
    (h1 : hasPending sid s.pendingSessions = false)
    (h2 : findSession sid s.ongoingSessions = none) :
    stopStream ff sid s = (s, noStopEffects) := by
  simp [stopStream, h1, h2]

theorem stopStream_findSession_none (ff : FailFlags) (sid : String)
    (s : SDState) :
    findSession sid (stopStream ff sid s).1.ongoingSessions = none := by
  by_cases hc : hasPending sid s.pendingSessions
  · simp only [stopStream, hc, if_true]
    cases hm : findSession sid (({ s with
        pendingSessions := deletePending sid s.pendingSessions } :
          SDState)).ongoingSessions with
    | none => simp [hm]
    | some sess => simp [hm, findSession_deleteSession]
  · simp only [stopStream, hc, Bool.false_eq_true, if_false]
    cases hm : findSession sid s.ongoingSessions with
    | none => simp [hm]
    | some sess => simp [hm, findSession_deleteSession]

end StreamingDelegate

open StreamingDelegate in
/-- Claim C8: `startStream` clamps each of width, height, fps and bitrate
to its configured maximum exactly when the maximum is configured and
either `forceMax` is set or the request exceeds it (in particular
`maxBitrate = X`, `forceMax`, requested `Y > X` gives `X`); and when the
configured codec is `copy`, width, height, fps and bitrate are all
reported unset (0 = native) and the video filter is dropped, regardless
of configured maxima. -/
theorem C8_clamping_and_copy (cfg : VideoConfig)
    (reqW reqH reqFps reqBitrate : Nat) :
    (vcodecStr cfg = "copy" →
      deriveVideoParams cfg reqW reqH reqFps reqBitrate
        = { width := 0, height := 0, fps := 0, bitrate := 0,
            videoFilter := none }) ∧
    (vcodecStr cfg ≠ "copy" →
      (deriveVideoParams cfg reqW reqH reqFps reqBitrate).bitrate
          = clampSpec cfg.maxBitrate cfg.forceMax reqBitrate ∧
      (deriveVideoParams cfg reqW reqH reqFps reqBitrate).fps
          = clampSpec cfg.maxFPS cfg.forceMax reqFps ∧
      (deriveVideoParams cfg reqW reqH reqFps reqBitrate).width
          = clampSpec cfg.maxWidth cfg.forceMax reqW ∧
      (deriveVideoParams cfg reqW reqH reqFps reqBitrate).height
          = clampSpec cfg.maxHeight cfg.forceMax reqH) ∧
    (∀ x : Nat, cfg.maxBitrate = some x → cfg.forceMax = true →
      reqBitrate > x → vcodecStr cfg ≠ "copy" →
      (deriveVideoParams cfg reqW reqH reqFps reqBitrate).bitrate = x) := by
  refine ⟨?_, ?_, ?_⟩
  · intro h
    simp [deriveVideoParams, h]
  · intro h
    refine ⟨?_, ?_, ?_, ?_⟩ <;>
      simp [deriveVideoParams, determineResolution, clampSpec, h]
  · intro x hx hf hgt hne
    simp [deriveVideoParams, clampSpec, hne, hx, hf]

open StreamingDelegate in
/-- Witness for C8: `maxBitrate = 300`, `forceMax`, requested 500 with
codec `libx264` clamps to 300; the same maxima with codec `copy` report
everything native. -/
theorem C8_witness :
    vcodecStr
      ({ maxWidth := some 640, maxHeight := some 360, maxFPS := some 15,
         maxBitrate := some 300, forceMax := true,
         vcodec := some "libx264", videoFilter := none } : VideoConfig)
      ≠ "copy" ∧
    (deriveVideoParams
      { maxWidth := some 640, maxHeight := some 360, maxFPS := some 15,
        maxBitrate := some 300, forceMax := true,
        vcodec := some "libx264", videoFilter := none }
      1280 720 30 500).bitrate = 300 ∧
    vcodecStr
      ({ maxWidth := some 640, maxHeight := some 360, maxFPS := some 15,
         maxBitrate := some 300, forceMax := true,
         vcodec := some "copy", videoFilter := none } : VideoConfig)
      = "copy" ∧
    deriveVideoParams
      { maxWidth := some 640, maxHeight := some 360, maxFPS := some 15,
        maxBitrate := some 300, forceMax := true,
        vcodec := some "copy", videoFilter := none }
      1280 720 30 500
      = { width := 0, height := 0, fps := 0, bitrate := 0,
          videoFilter := none } :=
  ⟨by decide,
   (C8_clamping_and_copy
      { maxWidth := some 640, maxHeight := some 360, maxFPS := some 15,
        maxBitrate := some 300, forceMax := true,
        vcodec := some "libx264", videoFilter := none }
      1280 720 30 500).2.2 300 rfl rfl (by decide) (by decide),
   by decide,
   (C8_clamping_and_copy
      { maxWidth := some 640, maxHeight := some 360, maxFPS := some 15,
        maxBitrate := some 300, forceMax := true,
        vcodec := some "copy", videoFilter := none }
      1280 720 30 500).1 (by decide)⟩

open StreamingDelegate in
/-- Claim C2, code evaluation at the failing input: the source never
assigns `this.snapshotPromise` a fetch promise (its only write sets it to
`undefined`), so after a completed fetch the cache is empty and a second
snapshot request — issued within the 3-second window, before or after the
expiry timer — performs a second upstream acquisition instead of reusing
a cached image. -/
theorem C2_code_bug_eval :
    (handleSnapshotRequest 7 mkDelegate).1.snapshotPromise = none ∧
    (handleSnapshotRequest 7
        (handleSnapshotRequest 7 mkDelegate).1).1.startLivestreamCommands
      = 2 ∧
    (handleSnapshotRequest 7 (expireSnapshotCache
        (handleSnapshotRequest 7 mkDelegate).1)).1.startLivestreamCommands
      = 2 := by
  decide

open StreamingDelegate in
/-- A session holding every resource, used to exercise `stopStream`. -/
def fullSession : ActiveSession :=
  { hasVideoProc := true, hasAudioProc := true, hasVsocket := true,
    hasAsocket := true, hasUVideo := true, hasUAudio := true,
    hasTimeout := true }

open StreamingDelegate in
/-- A delegate state with one ongoing session `S1`. -/
def sdOngoing : SDState :=
  { pendingSessions := [], ongoingSessions := [("S1", fullSession)] }

open StreamingDelegate in
/-- A run in which stopping the video ffmpeg process raises. -/
def videoStopFailure : FailFlags :=
  { noFailFlags with videoProcStopFails := true }

open StreamingDelegate in
/-- Claim C7, counterexample: with both processes attached, a failure
stopping the video process prevents the audio-process stop (they share
one `try` block), even though the later resource groups are still
cleaned up — so "a failure while releasing one resource does not prevent
cleanup of the remaining resources" is false as stated. -/
theorem C7_counterexample :
    (stopStream videoStopFailure "S1" sdOngoing).2.videoProcStopCalled
        = true ∧
    (stopStream videoStopFailure "S1" sdOngoing).2.audioProcStopCalled
        = false ∧
    (stopStream videoStopFailure "S1" sdOngoing).2.vsocketCloseCalled
        = true ∧
    (stopStream videoStopFailure "S1" sdOngoing).2.uVideoCloseCalled
        = true ∧
    (stopStream videoStopFailure "S1" sdOngoing).2.eufyStopCalled = true := by
  decide

open StreamingDelegate in
/-- Claim C7, amended: `stopStream` is idempotent — a second call for the
same id (and any call on an unknown or already-stopped session) produces
no error and releases nothing again; within one call, a failure in one
`try` block does not prevent the later blocks (sockets, bridges, upstream
release) or the removal of the session, but the two calls sharing a
block are sequential: a video-process stop failure skips the
audio-process stop. -/
theorem C7_stop_idempotent_grouped (ff : FailFlags) (sid : String)
    (s : SDState) :
    stopStream ff sid (stopStream ff sid s).1
      = ((stopStream ff sid s).1, noStopEffects) ∧
    (hasPending sid s.pendingSessions = false →
      findSession sid s.ongoingSessions = none →
      stopStream ff sid s = (s, noStopEffects)) ∧
    (∀ sess : ActiveSession, findSession sid s.ongoingSessions = some sess →
      (stopStream ff sid s).2.vsocketCloseCalled = sess.hasVsocket ∧
      (stopStream ff sid s).2.uVideoCloseCalled = sess.hasUVideo ∧
      (stopStream ff sid s).2.eufyStopCalled = true ∧
      findSession sid (stopStream ff sid s).1.ongoingSessions = none ∧
      (stopStream ff sid s).2.videoProcStopCalled = sess.hasVideoProc ∧
      (stopStream ff sid s).2.audioProcStopCalled
        = (sess.hasAudioProc && !(sess.hasVideoProc && ff.videoProcStopFails))) := by
  refine ⟨?_, ?_, ?_⟩
  · exact stopStream_noop ff sid (stopStream ff sid s).1
      (stopStream_pending_none ff sid s)
      (stopStream_findSession_none ff sid s)
  · intro h1 h2
    exact stopStream_noop ff sid s h1 h2
  · intro sess h
    by_cases hc : hasPending sid s.pendingSessions <;>
      simp [stopStream, hc, h, findSession_deleteSession]

open StreamingDelegate in
/-- Witness for C7 at a session holding every resource, with a failing
video-process stop. -/
theorem C7_witness :
    findSession "S1" sdOngoing.ongoingSessions = some fullSession ∧
    ((stopStream videoStopFailure "S1" sdOngoing).2.vsocketCloseCalled
        = fullSession.hasVsocket ∧
     (stopStream videoStopFailure "S1" sdOngoing).2.uVideoCloseCalled
        = fullSession.hasUVideo ∧
     (stopStream videoStopFailure "S1" sdOngoing).2.eufyStopCalled = true ∧
     findSession "S1"
        (stopStream videoStopFailure "S1" sdOngoing).1.ongoingSessions
        = none ∧
     (stopStream videoStopFailure "S1" sdOngoing).2.videoProcStopCalled
        = fullSession.hasVideoProc ∧
     (stopStream videoStopFailure "S1" sdOngoing).2.audioProcStopCalled
        = (fullSession.hasAudioProc
            && !(fullSession.hasVideoProc
                  && videoStopFailure.videoProcStopFails))) ∧
    stopStream videoStopFailure "S1"
        (stopStream videoStopFailure "S1" sdOngoing).1
      = ((stopStream videoStopFailure "S1" sdOngoing).1, noStopEffects) :=
  ⟨by decide,
   (C7_stop_idempotent_grouped videoStopFailure "S1" sdOngoing).2.2
     fullSession (by decide),
   (C7_stop_idempotent_grouped videoStopFailure "S1" sdOngoing).1⟩

open StreamingDelegate in
/-- A delegate state with one pending session `S1`. -/
def sdPending : SDState :=
  { pendingSessions := ["S1"], ongoingSessions := [] }

open StreamingDelegate in
/-- Claim C3, counterexample: when the upstream acquisition rejects, the
enclosing catch in `startStream` only logs — the callback is never
invoked with an error — so half of the claim is false as stated (no
partial session is registered, though). -/
theorem C3_counterexample :
    (startStream false false "AAC-eld" noFailFlags "S1"
        sdPending).2.callbackErrorInvoked = false ∧
    (startStream false false "AAC-eld" noFailFlags "S1"
        sdPending).2.startFailureLogged = true ∧
    (startStream false false "AAC-eld" noFailFlags "S1"
        sdPending).1.ongoingSessions = [] := by
  decide

open StreamingDelegate in
/-- Claim C3, amended: a `startStream` whose upstream acquisition rejects
only logs the failure — its callback is never invoked — and leaves the
state untouched; a `startStream` that finds no pending session info
invokes its callback with an error and also leaves the state untouched.
In both failure modes no partially-registered session remains in the
ongoing table. -/
theorem C3_startup_failure_no_partial_session (pendingRemoved : Bool)
    (codec : String) (ff : FailFlags) (sid : String) (s : SDState) :
    ((startStream false pendingRemoved codec ff sid
        s).2.callbackErrorInvoked = false ∧
     (startStream false pendingRemoved codec ff sid
        s).2.startFailureLogged = true ∧
     (startStream false pendingRemoved codec ff sid s).1 = s) ∧
    (hasPending sid s.pendingSessions = false →
      (startStream true pendingRemoved codec ff sid
        s).2.callbackErrorInvoked = true ∧
      (startStream true pendingRemoved codec ff sid s).1 = s) := by
  constructor
  · exact ⟨rfl, rfl, rfl⟩
  · intro h
    constructor <;> simp [startStream, h]

open StreamingDelegate in
/-- A delegate state with no sessions at all. -/
def sdEmpty : SDState := { pendingSessions := [], ongoingSessions := [] }

open StreamingDelegate in
/-- Witness for C3 on a delegate with no pending session. -/
theorem C3_witness :
    hasPending "S1" sdEmpty.pendingSessions = false ∧
    ((startStream false false "OPUS" noFailFlags "S1"
        sdEmpty).2.callbackErrorInvoked = false ∧
     (startStream false false "OPUS" noFailFlags "S1"
        sdEmpty).2.startFailureLogged = true ∧
     (startStream false false "OPUS" noFailFlags "S1" sdEmpty).1
        = sdEmpty) ∧
    ((startStream true false "OPUS" noFailFlags "S1"
        sdEmpty).2.callbackErrorInvoked = true ∧
     (startStream true false "OPUS" noFailFlags "S1" sdEmpty).1
        = sdEmpty) :=
  ⟨by decide,
   (C3_startup_failure_no_partial_session false "OPUS" noFailFlags "S1"
      sdEmpty).1,
   (C3_startup_failure_no_partial_session false "OPUS" noFailFlags "S1"
      sdEmpty).2 (by decide)⟩

open StreamingDelegate in
/-- Claim C5: when the pending entry is removed by a concurrent
`stopStream` while `startStream` is suspended (awaiting the upstream
handle and the fixed audio delay), the session `startStream` then
assembles is added to the ongoing table and immediately torn down by an
internal `stopStream` call, so it does not remain in the ongoing table. -/
theorem C5_orphaned_session_torn_down (codec : String) (ff : FailFlags)
    (sid : String) (s : SDState)
    (h : hasPending sid s.pendingSessions = true) :
    (startStream true true codec ff sid s).2.orphanStopInvoked = true ∧
    findSession sid
      (startStream true true codec ff sid s).1.ongoingSessions = none := by
  have hp := stopStream_pending_none ff sid s
  constructor <;>
    simp [startStream, h, hp, stopStream_findSession_none]

open StreamingDelegate in
/-- Witness for C5 on a delegate with pending session `S1`. -/
theorem C5_witness :
    hasPending "S1" sdPending.pendingSessions = true ∧
    ((startStream true true "OPUS" noFailFlags "S1"
        sdPending).2.orphanStopInvoked = true ∧
     findSession "S1"
        (startStream true true "OPUS" noFailFlags "S1"
          sdPending).1.ongoingSessions = none) :=
  ⟨by decide,
   C5_orphaned_session_torn_down "OPUS" noFailFlags "S1" sdPending
     (by decide)⟩

open StreamingDelegate in
/-- The session `startStream` assembles when the audio codec is
unsupported: video resources only. -/
def videoOnlySession : ActiveSession :=
  { hasVideoProc := true, hasAudioProc := false, hasVsocket := true,
    hasAsocket := false, hasUVideo := true, hasUAudio := false,
    hasTimeout := false }

open StreamingDelegate in
/-- Claim C10, counterexample: the unsupported-audio-codec condition is
reported through `log.error`, not a warning log, so the claim's "reported
by a warning log" is false as stated. -/
theorem C10_counterexample :
    (startStream true false "PCMU" noFailFlags "S1"
        sdPending).2.unsupportedCodecLog = some LogLevel.error ∧
    ¬ ((startStream true false "PCMU" noFailFlags "S1"
        sdPending).2.unsupportedCodecLog = some LogLevel.warn) := by
  decide

open StreamingDelegate in
/-- Claim C10, amended: with a pending session and an audio codec the
encoder does not support (neither OPUS nor AAC-eld), the session is not
aborted — the video process, video socket and video bridge are created
and the session lands in the ongoing table holding exactly the video
resources; no audio process or socket is created (the audio bridge,
created unconditionally before the codec check, is left unattached to
the session); the condition is reported by an error log, not a warning;
the callback is not invoked with an error. -/
theorem C10_unsupported_audio_video_only (codec : String) (ff : FailFlags)
    (sid : String) (s : SDState)
    (h1 : hasPending sid s.pendingSessions = true)
    (h2 : supportedAudioCodec codec = false) :
    (startStream true false codec ff sid s).2.createdVideoProc = true ∧
    (startStream true false codec ff sid s).2.createdVsocket = true ∧
    (startStream true false codec ff sid s).2.createdUVideo = true ∧
    (startStream true false codec ff sid s).2.createdAudioProc = false ∧
    (startStream true false codec ff sid s).2.createdAsocket = false ∧
    (startStream true false codec ff sid s).2.createdUAudio = true ∧
    (startStream true false codec ff sid s).2.unsupportedCodecLog
        = some LogLevel.error ∧
    (startStream true false codec ff sid s).2.callbackErrorInvoked = false ∧
    (startStream true false codec ff sid s).2.orphanStopInvoked = false ∧
    findSession sid
        (startStream true false codec ff sid s).1.ongoingSessions
      = some videoOnlySession := by
  refine ⟨?_, ?_, ?_, ?_, ?_, ?_, ?_, ?_, ?_, ?_⟩ <;>
    simp [startStream, h1, h2, videoOnlySession, findSession_setSession]

open StreamingDelegate in
/-- Witness for C10 with the unsupported codec `PCMU`. -/
theorem C10_witness :
    hasPending "S1" sdPending.pendingSessions = true ∧
    supportedAudioCodec "PCMU" = false ∧
    ((startStream true false "PCMU" noFailFlags "S1"
        sdPending).2.createdVideoProc = true ∧
     (startStream true false "PCMU" noFailFlags "S1"
        sdPending).2.createdVsocket = true ∧
     (startStream true false "PCMU" noFailFlags "S1"
        sdPending).2.createdUVideo = true ∧
     (startStream true false "PCMU" noFailFlags "S1"
        sdPending).2.createdAudioProc = false ∧
     (startStream true false "PCMU" noFailFlags "S1"
        sdPending).2.createdAsocket = false ∧
     (startStream true false "PCMU" noFailFlags "S1"
        sdPending).2.createdUAudio = true ∧
     (startStream true false "PCMU" noFailFlags "S1"
        sdPending).2.unsupportedCodecLog = some LogLevel.error ∧
     (startStream true false "PCMU" noFailFlags "S1"
        sdPending).2.callbackErrorInvoked = false ∧
     (startStream true false "PCMU" noFailFlags "S1"
        sdPending).2.orphanStopInvoked = false ∧
     findSession "S1"
        (startStream true false "PCMU" noFailFlags "S1"
          sdPending).1.ongoingSessions = some videoOnlySession) :=
  ⟨by decide, by decide,
   C10_unsupported_audio_video_only "PCMU" noFailFlags "S1" sdPending
     (by decide) (by decide)⟩
